import Mathlib

/-!
Shallow embedding of the Vinyl-RN core: the Collection Store
(`src/utils/api.ts`), the Discogs lookup client (`src/utils/discogs.ts`)
and the orchestration glue (`App.tsx`, `handleSelectRelease`).

JavaScript conventions modelled explicitly:
* `undefined` / optional properties become `Option`;
* the `x || d` idiom on strings treats the empty string as falsy;
* thrown `Error` objects become a `JsError` structure carrying the
  constructor name (`"Error"` for a plain `new Error(...)`) and message;
* `Date.now()` and `Math.random().toString(36).substr(2, 9)` are passed
  in as explicit `now : Nat` and `rand : String` oracle arguments;
* the AsyncStorage slot is modelled by `RawSlot`, and `JSON.parse` on the
  slot by an explicit `parse` oracle.
-/

namespace Vinyl

/-- JS `s || d` on a string value: the empty string is falsy. -/
def strOr (s d : String) : String :=
  if s = "" then d else s

/-- JS `x || d` where `x` is a possibly-`undefined` string (`x?: string`). -/
def jsOrStr (x : Option String) (d : String) : String :=
  match x with
  | some s => strOr s d
  | none => d

/-- JS `x || null` on a possibly-`undefined` string: empty or absent maps to null. -/
def jsOrNull (x : Option String) : Option String :=
  match x with
  | some s => if s = "" then none else some s
  | none => none

/-- JS `a || b` where both operands are possibly-`undefined` strings. -/
def jsOr (a b : Option String) : Option String :=
  match a with
  | some s => if s = "" then b else some s
  | none => b

/-- The `VinylData` interface of `src/types/index.ts`: four mandatory text
fields plus optional Discogs enrichment fields. -/
structure VinylData where
  artistName : String
  albumName : String
  serialNumber : String
  matrixRunout : String
  year : Option Nat
  country : Option String
  genre : Option (List String)
  style : Option (List String)
  label : Option String
  format : Option String
  discogsId : Option Nat
  discogsUrl : Option String
deriving DecidableEq, Repr

/-- The `VinylRecord` interface: `VinylData` plus identity, image and
timestamps (flattened). -/
structure VinylRecord where
  id : String
  artistName : String
  albumName : String
  serialNumber : String
  matrixRunout : String
  imageUrl : Option String
  year : Option Nat
  country : Option String
  genre : Option (List String)
  style : Option (List String)
  label : Option String
  format : Option String
  discogsId : Option Nat
  discogsUrl : Option String
  createdAt : Nat
  updatedAt : Nat
deriving DecidableEq, Repr

/-- The argument type of `createRecord`: `Partial<VinylData> & {imageUrl?: string}`.
Property access collapses `absent` and `present-undefined`, so one `Option`
layer per field suffices here. -/
structure CreateInput where
  artistName : Option String := none
  albumName : Option String := none
  serialNumber : Option String := none
  matrixRunout : Option String := none
  year : Option Nat := none
  country : Option String := none
  genre : Option (List String) := none
  style : Option (List String) := none
  label : Option String := none
  format : Option String := none
  discogsId : Option Nat := none
  discogsUrl : Option String := none
  imageUrl : Option String := none
deriving DecidableEq, Repr

/-- The argument type of `updateRecord`: `Partial<VinylData>` as consumed by
object spread. The outer `Option` is key presence; for the optional
enrichment fields the inner `Option` is the (possibly `undefined`) value, so
a key present with value `undefined` still overwrites on spread. -/
structure VinylPatch where
  artistName : Option String := none
  albumName : Option String := none
  serialNumber : Option String := none
  matrixRunout : Option String := none
  year : Option (Option Nat) := none
  country : Option (Option String) := none
  genre : Option (Option (List String)) := none
  style : Option (Option (List String)) := none
  label : Option (Option String) := none
  format : Option (Option String) := none
  discogsId : Option (Option Nat) := none
  discogsUrl : Option (Option String) := none
deriving DecidableEq, Repr

/-- A thrown JavaScript error value: constructor name plus message.
`new Error(msg)` has name `"Error"`. -/
structure JsError where
  name : String
  message : String
deriving DecidableEq, Repr

/-- `throw new Error('Record not found')` in `getRecord` / `updateRecord`. -/
def notFoundError : JsError := ⟨"Error", "Record not found"⟩

/-- The id built at line 63 of `api.ts`:
`record_${now}_${Math.random().toString(36).substr(2, 9)}`. -/
def makeId (now : Nat) (rand : String) : String :=
  "record_" ++ toString now ++ "_" ++ rand

/-- The record literal built by `api.createRecord` (lines 62-81 of `api.ts`). -/
def buildRecord (record : CreateInput) (now : Nat) (rand : String) : VinylRecord :=
  { id := makeId now rand
    artistName := jsOrStr record.artistName ""
    albumName := jsOrStr record.albumName ""
    serialNumber := jsOrStr record.serialNumber ""
    matrixRunout := jsOrStr record.matrixRunout ""
    imageUrl := jsOrNull record.imageUrl
    year := record.year
    country := record.country
    genre := record.genre
    style := record.style
    label := record.label
    format := record.format
    discogsId := record.discogsId
    discogsUrl := record.discogsUrl
    createdAt := now
    updatedAt := now }

/-- `api.createRecord`: build the new record, append it to the stored
sequence, return it together with the sequence written back. -/
def createRecord (records : List VinylRecord) (record : CreateInput)
    (now : Nat) (rand : String) : VinylRecord × List VinylRecord :=
  let newRecord := buildRecord record now rand
  (newRecord, records ++ [newRecord])

/-- `api.getRecord`: linear `find` on the stored sequence, throwing
`new Error('Record not found')` when no record matches. -/
def getRecord (records : List VinylRecord) (id : String) :
    Except JsError VinylRecord :=
  match records.find? (fun r => r.id = id) with
  | some r => .ok r
  | none => .error notFoundError

/-- The spread `{...records[index], ...updates, updatedAt: Date.now()}` of
`api.updateRecord`: a key present in `updates` overwrites, `updatedAt` is
forced to `now`, everything else is kept. -/
def applyPatch (r : VinylRecord) (updates : VinylPatch) (now : Nat) : VinylRecord :=
  { id := r.id
    artistName := updates.artistName.getD r.artistName
    albumName := updates.albumName.getD r.albumName
    serialNumber := updates.serialNumber.getD r.serialNumber
    matrixRunout := updates.matrixRunout.getD r.matrixRunout
    imageUrl := r.imageUrl
    year := updates.year.getD r.year
    country := updates.country.getD r.country
    genre := updates.genre.getD r.genre
    style := updates.style.getD r.style
    label := updates.label.getD r.label
    format := updates.format.getD r.format
    discogsId := updates.discogsId.getD r.discogsId
    discogsUrl := updates.discogsUrl.getD r.discogsUrl
    createdAt := r.createdAt
    updatedAt := now }

/-- `api.updateRecord`: `findIndex`, throw `new Error('Record not found')`
on `-1`, otherwise replace the found record with the spread-merged one and
write the full sequence back. -/
def updateRecord (records : List VinylRecord) (id : String)
    (updates : VinylPatch) (now : Nat) :
    Except JsError (VinylRecord × List VinylRecord) :=
  match records.find? (fun r => r.id = id) with
  | none => .error notFoundError
  | some r =>
      let i := records.findIdx (fun t => t.id = id)
      let updated := applyPatch r updates now
      .ok (updated, records.set i updated)

/-- `api.deleteRecord`: `records.filter(r => r.id !== id)`, written back. -/
def deleteRecord (records : List VinylRecord) (id : String) : List VinylRecord :=
  records.filter (fun r => r.id ≠ id)

/-- The state of the AsyncStorage slot as seen by `getStoredRecords`:
`getItem` may return null (`missing`), throw (`readFailure`), or return a
string. -/
inductive RawSlot
  | missing
  | readFailure
  | value (s : String)
deriving DecidableEq, Repr

/-- `getStoredRecords` (lines 21-29 of `api.ts`): `stored ? JSON.parse(stored) : []`
inside a try/catch that returns `[]` on any failure. `parse` is the
`JSON.parse` oracle; `none` means it throws. -/
def getStoredRecords (slot : RawSlot)
    (parse : String → Option (List VinylRecord)) : List VinylRecord :=
  match slot with
  | .missing => []
  | .readFailure => []
  | .value s => if s = "" then [] else (parse s).getD []

/-- `api.getRecords`: returns `getStoredRecords()` unchanged. -/
def getRecords (slot : RawSlot)
    (parse : String → Option (List VinylRecord)) : List VinylRecord :=
  getStoredRecords slot parse

/-! ## Discogs lookup client (`src/utils/discogs.ts`) -/

/-- The failure modes of the lookup client (`DiscogsAPI.request`):
a not-configured rejection before any fetch, a non-success HTTP status
carrying status, status text and extracted message, or a transport-level
failure with no response (`'Failed to fetch data from Discogs API'`). -/
inductive DiscogsError
  | configuration
  | http (status : Nat) (statusText : String) (message : String)
  | transport
deriving DecidableEq, Repr

/-- An HTTP response as observed by `DiscogsAPI.request`. `errorBody` models
`response.json()` on the error path: `none` when the body fails to parse as
JSON (the `.catch(() => ({}))` branch), `some m` when it parses with `m` the
possibly-absent `message` field. `data` is the decoded success payload. -/
structure HttpResponse (α : Type) where
  ok : Bool
  status : Nat
  statusText : String
  errorBody : Option (Option String)
  data : α

/-- `errorData.message || ''`: empty string when the body did not parse,
when `message` is absent, or when it is empty. -/
def extractMessage (errorBody : Option (Option String)) : String :=
  jsOrStr errorBody.join ""

/-- `DiscogsAPI.request` (lines 172-208 of `discogs.ts`), with the fetch
outcome passed as an oracle (`none` = the fetch itself failed). The second
component counts HTTP requests issued. The configuration gate runs before
any fetch, so an unconfigured client issues zero requests. -/
def request (token : Option String) (fetched : Option (HttpResponse α)) :
    Except DiscogsError α × Nat :=
  match token with
  | none => (.error .configuration, 0)
  | some _ =>
      match fetched with
      | none => (.error .transport, 1)
      | some response =>
          if response.ok then (.ok response.data, 1)
          else
            (.error (.http response.status response.statusText
              (extractMessage response.errorBody)), 1)

/-- The `type` filter enumeration of the search endpoint. -/
inductive SearchType
  | release
  | master
  | artist
  | label
deriving DecidableEq, Repr

/-- Query-string form of a `SearchType`. -/
def SearchType.toStr : SearchType → String
  | .release => "release"
  | .master => "master"
  | .artist => "artist"
  | .label => "label"

/-- A network oracle: endpoint path and query parameters to fetch outcome. -/
def Net (α : Type) := String → List (String × String) → Option (HttpResponse α)

/-- The query parameters built by `DiscogsAPI.search`. -/
def searchParams (query : String) (ty : Option SearchType)
    (page perPage : Nat) : List (String × String) :=
  [("q", query), ("page", toString page), ("per_page", toString perPage)]
    ++ (match ty with
        | some t => [("type", t.toStr)]
        | none => [])

/-- `DiscogsAPI.search`. -/
def search (token : Option String) (net : Net α) (query : String)
    (ty : Option SearchType) (page perPage : Nat) :
    Except DiscogsError α × Nat :=
  request token (net "/database/search" (searchParams query ty page perPage))

/-- `DiscogsAPI.searchRelease`: concatenates artist and album, delegates to
`search` with type `release` (and the default `perPage` of 20). -/
def searchRelease (token : Option String) (net : Net α)
    (artist album : String) (page : Nat) : Except DiscogsError α × Nat :=
  search token net (artist ++ " " ++ album) (some .release) page 20

/-- `DiscogsAPI.getRelease`. -/
def getRelease (token : Option String) (net : Net α) (releaseId : Nat) :
    Except DiscogsError α × Nat :=
  request token (net ("/releases/" ++ toString releaseId) [])

/-- `DiscogsAPI.getMasterRelease`. -/
def getMasterRelease (token : Option String) (net : Net α) (masterId : Nat) :
    Except DiscogsError α × Nat :=
  request token (net ("/masters/" ++ toString masterId) [])

/-- `DiscogsAPI.searchByBarcode`. -/
def searchByBarcode (token : Option String) (net : Net α) (barcode : String) :
    Except DiscogsError α × Nat :=
  request token (net "/database/search" [("barcode", barcode), ("type", "release")])

/-- `DiscogsAPI.searchByCatalogNumber`. -/
def searchByCatalogNumber (token : Option String) (net : Net α)
    (catno : String) (page : Nat) : Except DiscogsError α × Nat :=
  request token
    (net "/database/search"
      [("catno", catno), ("type", "release"), ("page", toString page)])

/-! ## Discogs release details and the orchestration glue (`App.tsx`) -/

/-- An entry of `DiscogsReleaseDetails.artists`. -/
structure DiscogsArtist where
  name : String
  anv : Option String
  id : Nat
deriving DecidableEq, Repr

/-- An entry of `DiscogsReleaseDetails.labels`. -/
structure DiscogsLabel where
  name : String
  catno : String
  id : Nat
deriving DecidableEq, Repr

/-- An entry of `DiscogsReleaseDetails.formats`. -/
structure DiscogsFormat where
  name : String
  qty : String
  descriptions : Option (List String)
deriving DecidableEq, Repr

/-- An entry of `DiscogsReleaseDetails.images`. -/
structure DiscogsImage where
  type : String
  uri : String
  uri150 : String
  width : Nat
  height : Nat
deriving DecidableEq, Repr

/-- An entry of `DiscogsReleaseDetails.identifiers`. -/
structure DiscogsIdentifier where
  type : String
  value : String
deriving DecidableEq, Repr

/-- An entry of `DiscogsReleaseDetails.tracklist`. -/
structure DiscogsTrack where
  position : String
  title : String
  duration : String
deriving DecidableEq, Repr

/-- The `DiscogsReleaseDetails` interface of `discogs.ts`. -/
structure DiscogsReleaseDetails where
  id : Nat
  title : String
  artists : List DiscogsArtist
  year : Option Nat
  released : Option String
  country : Option String
  labels : List DiscogsLabel
  formats : List DiscogsFormat
  genres : Option (List String)
  styles : Option (List String)
  tracklist : Option (List DiscogsTrack)
  images : Option (List DiscogsImage)
  identifiers : Option (List DiscogsIdentifier)
  notes : Option String
  uri : Option String
  resource_url : Option String
deriving DecidableEq, Repr

/-- `release.images?.[0]?.uri || release.images?.[0]?.uri150 || undefined`
of `handleSelectRelease`. -/
def coverImage (images : Option (List DiscogsImage)) : Option String :=
  let first := images.bind List.head?
  jsOr (jsOr (first.map (fun i => i.uri)) (first.map (fun i => i.uri150))) none

/-- The `createRecord` argument built by `handleSelectRelease`
(lines 102-123 of `App.tsx`): the `vinylData` literal spread together with
the selected cover image. -/
def selectReleaseInput (release : DiscogsReleaseDetails) : CreateInput :=
  { artistName := some (jsOrStr ((release.artists.head?).map (fun a => a.name)) "")
    albumName := some (strOr release.title "")
    serialNumber := some (jsOrStr ((release.labels.head?).map (fun l => l.catno)) "")
    matrixRunout := some (jsOrStr
      ((release.identifiers.bind
        (fun l => l.find? (fun i => i.type = "Matrix / Runout"))).map
          (fun i => i.value)) "")
    year := release.year
    country := release.country
    genre := release.genres
    style := release.styles
    label := (release.labels.head?).map (fun l => l.name)
    format := (release.formats.head?).map (fun f => f.name)
    discogsId := some release.id
    discogsUrl := release.uri
    imageUrl := coverImage release.images }

/-- `handleSelectRelease` persists via `api.createRecord`. -/
def selectRelease (records : List VinylRecord) (release : DiscogsReleaseDetails)
    (now : Nat) (rand : String) : VinylRecord × List VinylRecord :=
  createRecord records (selectReleaseInput release) now rand

/-- Spec-side cover selection: prefer the first image's full-size URI, fall
back to its thumbnail URI, else leave the image unset. -/
def specCover (images : Option (List DiscogsImage)) : Option String :=
  match images.bind List.head? with
  | none => none
  | some img =>
      if img.uri ≠ "" then some img.uri
      else if img.uri150 ≠ "" then some img.uri150
      else none

/-- A concrete record used to instantiate hypotheses in witnesses. -/
def sampleRecord : VinylRecord :=
  { id := "a", artistName := "A", albumName := "B", serialNumber := ""
    matrixRunout := "", imageUrl := none, year := some 1970, country := none
    genre := none, style := none, label := none, format := none
    discogsId := none, discogsUrl := none, createdAt := 1, updatedAt := 1 }

/-- A concrete release used to instantiate hypotheses in witnesses. -/
def sampleRelease : DiscogsReleaseDetails :=
  { id := 1, title := "Kind of Blue"
    artists := [⟨"Miles Davis", none, 10⟩]
    year := some 1959, released := none, country := some "US"
    labels := [⟨"Columbia", "CL 1355", 20⟩]
    formats := [⟨"Vinyl", "1", none⟩]
    genres := some ["Jazz"], styles := none, tracklist := none
    images := none, identifiers := none, notes := none
    uri := some "release-uri", resource_url := none }

/-! ## Helper lemmas -/

theorem strOr_empty (s : String) : strOr s "" = s := by
  rw [strOr]
  split
  · next h => exact h.symm
  · rfl

theorem jsOrStr_empty (o : Option String) : jsOrStr o "" = o.getD "" := by
  cases o with
  | none => rfl
  | some s => simpa [jsOrStr] using strOr_empty s

theorem string_append_left_cancel (s t u : String) (h : s ++ t = s ++ u) : t = u := by
  have hd := congrArg String.data h
  simp only [String.data_append] at hd
  exact String.ext (List.append_cancel_left hd)

theorem coverImage_spec (images : Option (List DiscogsImage)) :
    jsOrNull (coverImage images) = specCover images := by
  cases himg : images.bind List.head? with
  | none => simp [coverImage, specCover, himg, jsOr, jsOrNull]
  | some img =>
      by_cases h1 : img.uri = "" <;> by_cases h2 : img.uri150 = "" <;>
        simp [coverImage, specCover, himg, jsOr, jsOrNull, h1, h2]

/-! ## Claim theorems -/

/-- Claim C6: `getRecords` never raises; an empty, missing, or unparseable
stored value yields the empty sequence (fail-open), and a well-formed stored
value yields the full record sequence in backing-store order with no
pagination. -/
theorem getRecords_fail_open (parse : String → Option (List VinylRecord))
    (s : String) (rs : List VinylRecord) :
    getRecords .missing parse = [] ∧
    getRecords .readFailure parse = [] ∧
    (parse s = none → getRecords (.value s) parse = []) ∧
    (s ≠ "" → parse s = some rs → getRecords (.value s) parse = rs) := by
  refine ⟨rfl, rfl, ?_, ?_⟩
  · intro h
    by_cases hs : s = "" <;> simp [getRecords, getStoredRecords, hs, h]
  · intro hs h
    simp [getRecords, getStoredRecords, hs, h]

/-- Witness for C6 at concrete slots: a missing slot, an unparseable value
and a well-formed value. -/
theorem getRecords_fail_open_witness :
    getRecords .missing (fun _ => none) = [] ∧
    getRecords (.value "xyz") (fun _ => none) = [] ∧
    getRecords (.value "[]") (fun _ => some []) = [] := by
  refine ⟨(getRecords_fail_open (fun _ => none) "xyz" []).1, ?_, ?_⟩
  · exact (getRecords_fail_open (fun _ => none) "xyz" []).2.2.1 rfl
  · exact (getRecords_fail_open (fun _ => some []) "[]" []).2.2.2 (by decide) rfl

/-- Claim C4: with no token set, all six lookup operations fail with the
configuration error and issue zero HTTP requests, whatever the network
oracle would have answered. -/
theorem discogs_unconfigured_gate (α : Type) (net : Net α) (query : String)
    (ty : Option SearchType) (page perPage : Nat) (artist album : String)
    (releaseId masterId : Nat) (barcode catno : String) :
    search none net query ty page perPage = (.error .configuration, 0) ∧
    searchRelease none net artist album page = (.error .configuration, 0) ∧
    getRelease none net releaseId = (.error .configuration, 0) ∧
    getMasterRelease none net masterId = (.error .configuration, 0) ∧
    searchByBarcode none net barcode = (.error .configuration, 0) ∧
    searchByCatalogNumber none net catno page = (.error .configuration, 0) :=
  ⟨rfl, rfl, rfl, rfl, rfl, rfl⟩

/-- Claim C5: for a configured client, a non-success response raises a
single error carrying status, status text and the server message (empty
when the error body fails to parse as JSON), a missing response raises the
transport error, and no failing call returns data. -/
theorem request_error_policy (α : Type) (t : String) (response : HttpResponse α) :
    request (some t) (none : Option (HttpResponse α)) = (.error .transport, 1) ∧
    (response.ok = false →
      ∃ msg, request (some t) (some response) =
          (.error (.http response.status response.statusText msg), 1) ∧
        (∀ m, response.errorBody = some (some m) → m ≠ "" → msg = m) ∧
        (response.errorBody = none → msg = "") ∧
        ∀ a : α, (request (some t) (some response)).1 ≠ .ok a) := by
  refine ⟨rfl, ?_⟩
  intro hok
  refine ⟨extractMessage response.errorBody, by simp [request, hok], ?_, ?_, ?_⟩
  · intro m hm hne
    simp [extractMessage, hm, Option.join, jsOrStr, strOr, hne]
  · intro h
    simp [extractMessage, h, Option.join, jsOrStr]
  · intro a
    simp [request, hok]

/-- Witness for C5 at a concrete 404 whose error body does not parse. -/
theorem request_error_policy_witness :
    request (some "t") (some (⟨false, 404, "Not Found", none, ()⟩ : HttpResponse Unit)) =
      (.error (.http 404 "Not Found" ""), 1) := by
  obtain ⟨-, h⟩ :=
    request_error_policy Unit "t" ⟨false, 404, "Not Found", none, ()⟩
  obtain ⟨msg, he, -, hnone, -⟩ := h rfl
  rw [hnone rfl] at he
  exact he

/-- Claim C8: deleting an absent id leaves the collection unchanged and does
not raise; delete removes every record with the matching id; deleting twice
equals deleting once. -/
theorem deleteRecord_idempotent (records : List VinylRecord) (id : String) :
    ((∀ r ∈ records, r.id ≠ id) → deleteRecord records id = records) ∧
    (∀ r ∈ deleteRecord records id, r.id ≠ id) ∧
    deleteRecord (deleteRecord records id) id = deleteRecord records id := by
  refine ⟨?_, ?_, ?_⟩
  · intro h
    rw [deleteRecord, List.filter_eq_self]
    intro a ha
    simpa using h a ha
  · intro r hr
    rw [deleteRecord, List.mem_filter] at hr
    simpa using hr.2
  · rw [deleteRecord, List.filter_eq_self]
    intro a ha
    rw [deleteRecord, List.mem_filter] at ha
    exact ha.2

/-- Witness for C8: an absent id is a no-op, and deleting an existing id is
idempotent, at a concrete one-record store. -/
theorem deleteRecord_idempotent_witness :
    deleteRecord [sampleRecord] "zzz" = [sampleRecord] ∧
    deleteRecord (deleteRecord [sampleRecord] "a") "a" =
      deleteRecord [sampleRecord] "a" := by
  refine ⟨(deleteRecord_idempotent [sampleRecord] "zzz").1 ?_,
    (deleteRecord_idempotent [sampleRecord] "a").2.2⟩
  intro r hr
  rw [List.mem_singleton] at hr
  rw [hr]
  decide

/-- Counterexample for C1: a present-but-empty `imageUrl` is coerced to null
by `record.imageUrl || null`, so the created record's `imageUrl` does not
equal the input's `imageUrl` even though it was not absent. -/
theorem createRecord_imageUrl_counterexample :
    (createRecord [] { imageUrl := some "" } 0 "r0").1.imageUrl = none ∧
    ({ imageUrl := some "" } : CreateInput).imageUrl = some "" ∧
    (none : Option String) ≠ some "" := by
  refine ⟨?_, rfl, by simp⟩
  simp [createRecord, buildRecord, jsOrNull]

/-- Claim C1 (amended): `createRecord` defaults the four mandatory text
fields to the empty string when absent, sets `imageUrl` to the input's value
when present and non-empty and to null otherwise, copies the enrichment
fields through verbatim, sets `createdAt = updatedAt`, and — when the fresh
id does not collide with a stored one — the written sequence contains
exactly one record equal to the returned one and `getRecord` of its id
returns it. -/
theorem createRecord_round_trip (records : List VinylRecord) (x : CreateInput)
    (now : Nat) (rand : String)
    (hfresh : ∀ r ∈ records, r.id ≠ makeId now rand) :
    (createRecord records x now rand).1.artistName = x.artistName.getD "" ∧
    (createRecord records x now rand).1.albumName = x.albumName.getD "" ∧
    (createRecord records x now rand).1.serialNumber = x.serialNumber.getD "" ∧
    (createRecord records x now rand).1.matrixRunout = x.matrixRunout.getD "" ∧
    ((x.imageUrl = none ∨ x.imageUrl = some "") →
      (createRecord records x now rand).1.imageUrl = none) ∧
    (∀ s, x.imageUrl = some s → s ≠ "" →
      (createRecord records x now rand).1.imageUrl = some s) ∧
    (createRecord records x now rand).1.year = x.year ∧
    (createRecord records x now rand).1.country = x.country ∧
    (createRecord records x now rand).1.genre = x.genre ∧
    (createRecord records x now rand).1.style = x.style ∧
    (createRecord records x now rand).1.label = x.label ∧
    (createRecord records x now rand).1.format = x.format ∧
    (createRecord records x now rand).1.discogsId = x.discogsId ∧
    (createRecord records x now rand).1.discogsUrl = x.discogsUrl ∧
    (createRecord records x now rand).1.createdAt =
      (createRecord records x now rand).1.updatedAt ∧
    (createRecord records x now rand).2.count (createRecord records x now rand).1 = 1 ∧
    getRecord (createRecord records x now rand).2
      (createRecord records x now rand).1.id =
      .ok (createRecord records x now rand).1 := by
  have hid : (createRecord records x now rand).1.id = makeId now rand := rfl
  have hnotmem : (createRecord records x now rand).1 ∉ records := by
    intro hmem
    exact hfresh _ hmem hid
  have hfindnone :
      records.find? (fun r => r.id = (createRecord records x now rand).1.id) = none := by
    rw [List.find?_eq_none]
    intro r hr
    simpa [hid] using hfresh r hr
  refine ⟨jsOrStr_empty _, jsOrStr_empty _, jsOrStr_empty _, jsOrStr_empty _,
    ?_, ?_, rfl, rfl, rfl, rfl, rfl, rfl, rfl, rfl, rfl, ?_, ?_⟩
  · rintro (h | h) <;> simp [createRecord, buildRecord, jsOrNull, h]
  · intro s hs hne
    simp [createRecord, buildRecord, jsOrNull, hs, hne]
  · rw [show (createRecord records x now rand).2 =
      records ++ [(createRecord records x now rand).1] from rfl]
    rw [List.count_append, List.count_eq_zero.mpr hnotmem]
    simp
  · rw [show (createRecord records x now rand).2 =
      records ++ [(createRecord records x now rand).1] from rfl]
    rw [getRecord, List.find?_append, hfindnone]
    simp

/-- Witness for C1 at the empty store and the empty input. -/
theorem createRecord_round_trip_witness :
    (createRecord [] {} 0 "abc").1.artistName = "" ∧
    (createRecord [] {} 0 "abc").2.count (createRecord [] {} 0 "abc").1 = 1 ∧
    getRecord (createRecord [] {} 0 "abc").2 (createRecord [] {} 0 "abc").1.id =
      .ok (createRecord [] {} 0 "abc").1 := by
  obtain ⟨h1, -, -, -, -, -, -, -, -, -, -, -, -, -, -, hcount, hget⟩ :=
    createRecord_round_trip [] {} 0 "abc" (by simp)
  exact ⟨h1, hcount, hget⟩

/-- Spec-side merge property for C2: every field not named in the patch is
kept (and the fields a `Partial<VinylData>` cannot name are always kept,
`updatedAt` apart). -/
def keepsUnnamed (r rnew : VinylRecord) (u : VinylPatch) : Prop :=
  (u.artistName = none → rnew.artistName = r.artistName) ∧
  (u.albumName = none → rnew.albumName = r.albumName) ∧
  (u.serialNumber = none → rnew.serialNumber = r.serialNumber) ∧
  (u.matrixRunout = none → rnew.matrixRunout = r.matrixRunout) ∧
  (u.year = none → rnew.year = r.year) ∧
  (u.country = none → rnew.country = r.country) ∧
  (u.genre = none → rnew.genre = r.genre) ∧
  (u.style = none → rnew.style = r.style) ∧
  (u.label = none → rnew.label = r.label) ∧
  (u.format = none → rnew.format = r.format) ∧
  (u.discogsId = none → rnew.discogsId = r.discogsId) ∧
  (u.discogsUrl = none → rnew.discogsUrl = r.discogsUrl) ∧
  rnew.id = r.id ∧ rnew.imageUrl = r.imageUrl ∧ rnew.createdAt = r.createdAt

/-- Spec-side merge property for C2: every field named in the patch takes
its new value. -/
def takesNamed (rnew : VinylRecord) (u : VinylPatch) : Prop :=
  (∀ v, u.artistName = some v → rnew.artistName = v) ∧
  (∀ v, u.albumName = some v → rnew.albumName = v) ∧
  (∀ v, u.serialNumber = some v → rnew.serialNumber = v) ∧
  (∀ v, u.matrixRunout = some v → rnew.matrixRunout = v) ∧
  (∀ v, u.year = some v → rnew.year = v) ∧
  (∀ v, u.country = some v → rnew.country = v) ∧
  (∀ v, u.genre = some v → rnew.genre = v) ∧
  (∀ v, u.style = some v → rnew.style = v) ∧
  (∀ v, u.label = some v → rnew.label = v) ∧
  (∀ v, u.format = some v → rnew.format = v) ∧
  (∀ v, u.discogsId = some v → rnew.discogsId = v) ∧
  (∀ v, u.discogsUrl = some v → rnew.discogsUrl = v)

/-- Claim C2: `updateRecord` on a present id merges the patch onto the
existing record — unnamed fields kept, named fields replaced — and, when the
clock reading is strictly above the record's `updatedAt` (strictly monotonic
clock), the new `updatedAt` is strictly greater; on an absent id it raises
the not-found error. -/
theorem updateRecord_merge (records : List VinylRecord) (id : String)
    (u : VinylPatch) (now : Nat) :
    (∀ r, records.find? (fun t => t.id = id) = some r → r.updatedAt < now →
      ∃ rnew rest, updateRecord records id u now = .ok (rnew, rest) ∧
        keepsUnnamed r rnew u ∧ takesNamed rnew u ∧
        r.updatedAt < rnew.updatedAt) ∧
    (records.find? (fun t => t.id = id) = none →
      updateRecord records id u now = .error notFoundError) := by
  constructor
  · intro r hfind hclock
    refine ⟨applyPatch r u now,
      records.set (records.findIdx (fun t => t.id = id)) (applyPatch r u now),
      by simp [updateRecord, hfind], ?_, ?_, ?_⟩
    · constructor
      · intro h; simp [applyPatch, h]
      refine ⟨?_, ?_, ?_, ?_, ?_, ?_, ?_, ?_, ?_, ?_, ?_, rfl, rfl, rfl⟩ <;>
        (intro h; simp [applyPatch, h])
    · refine ⟨?_, ?_, ?_, ?_, ?_, ?_, ?_, ?_, ?_, ?_, ?_, ?_⟩ <;>
        (intro v h; simp [applyPatch, h])
    · simpa [applyPatch] using hclock
  · intro hfind
    simp [updateRecord, hfind]

/-- Witness for C2 at a one-record store: a successful merge and a
not-found failure. -/
theorem updateRecord_merge_witness :
    (∃ rnew rest, updateRecord [sampleRecord] "a" {} 5 = .ok (rnew, rest)) ∧
    updateRecord [sampleRecord] "zzz" {} 5 = .error notFoundError := by
  constructor
  · obtain ⟨rnew, rest, h, -, -, -⟩ :=
      (updateRecord_merge [sampleRecord] "a" {} 5).1 sampleRecord (by decide) (by decide)
    exact ⟨rnew, rest, h⟩
  · exact (updateRecord_merge [sampleRecord] "zzz" {} 5).2 (by decide)

/-- Counterexample for C3: two creations in the same clock tick whose random
draws coincide produce the same id, so N rapid creations are not
unconditionally pairwise distinct. -/
theorem createRecord_duplicate_id_counterexample :
    (createRecord [] {} 5 "dup").1.id =
      (createRecord (createRecord [] {} 5 "dup").2 {} 5 "dup").1.id ∧
    (createRecord (createRecord [] {} 5 "dup").2 {} 5 "dup").2.length = 2 := by
  exact ⟨rfl, rfl⟩

/-- Claim C3 (amended): the id combines the timestamp with a random suffix,
so two records created in the same clock tick get distinct ids whenever
their random suffixes differ — the timestamp alone is not relied on — but
uniqueness is only as strong as the distinctness of the random draws. -/
theorem makeId_distinct_of_rand_ne (now : Nat) (r1 r2 : String)
    (h : r1 ≠ r2) : makeId now r1 ≠ makeId now r2 := by
  intro he
  exact h (string_append_left_cancel ("record_" ++ toString now ++ "_") r1 r2 he)

/-- Witness for C3 at two concrete nine-character suffixes in one tick. -/
theorem makeId_distinct_of_rand_ne_witness :
    makeId 5 "aaaaaaaaa" ≠ makeId 5 "bbbbbbbbb" :=
  makeId_distinct_of_rand_ne 5 "aaaaaaaaa" "bbbbbbbbb" (by decide)

/-- Counterexample for C7: the error raised on an absent id is a plain
generic `Error` (constructor name `"Error"`), not a dedicated
`NotFoundError` kind — callers can only distinguish it by its message. -/
theorem notFound_generic_error_counterexample :
    getRecord [] "missing" = .error notFoundError ∧
    notFoundError.name = "Error" ∧
    notFoundError.name ≠ "NotFoundError" := by
  refine ⟨rfl, rfl, by decide⟩

/-- Claim C7 (amended): on every absent id, `getRecord` and `updateRecord`
raise the same generic `Error` whose message is `'Record not found'`
(distinguishable only by message, not by error kind); on every present id,
neither operation raises. -/
theorem notFound_by_message (records : List VinylRecord) (id : String)
    (u : VinylPatch) (now : Nat) :
    ((∀ r ∈ records, r.id ≠ id) →
      getRecord records id = .error notFoundError ∧
      updateRecord records id u now = .error notFoundError ∧
      notFoundError.message = "Record not found") ∧
    ((∃ r ∈ records, r.id = id) →
      (∃ found, getRecord records id = .ok found) ∧
      ∃ p, updateRecord records id u now = .ok p) := by
  constructor
  · intro h
    have hfind : records.find? (fun t => t.id = id) = none := by
      rw [List.find?_eq_none]
      intro x hx
      simpa using h x hx
    exact ⟨by simp [getRecord, hfind], by simp [updateRecord, hfind], rfl⟩
  · intro h
    have hsome : (records.find? (fun t => t.id = id)).isSome := by
      rw [List.find?_isSome]
      simpa using h
    obtain ⟨r, hr⟩ := Option.isSome_iff_exists.mp hsome
    refine ⟨⟨r, by simp [getRecord, hr]⟩,
      ⟨(applyPatch r u now,
        records.set (records.findIdx (fun t => t.id = id)) (applyPatch r u now)),
        by simp [updateRecord, hr]⟩⟩

/-- Witness for C7: an absent id yields the not-found error and a present id
yields a successful read, at concrete stores. -/
theorem notFound_by_message_witness :
    getRecord [] "zzz" = .error notFoundError ∧
    (∃ found, getRecord [sampleRecord] "a" = .ok found) := by
  refine ⟨((notFound_by_message [] "zzz" {} 0).1 (by simp)).1, ?_⟩
  exact ((notFound_by_message [sampleRecord] "a" {} 0).2
    ⟨sampleRecord, by simp, by decide⟩).1

/-- Claim C10: `updateRecord` leaves the record's `id`, `createdAt` and
`imageUrl` unchanged (the patch type cannot name them), forces `updatedAt`,
and leaves every other position of the sequence — and its length/order —
unchanged. -/
theorem updateRecord_frame (records : List VinylRecord) (id : String)
    (u : VinylPatch) (now : Nat) (r : VinylRecord)
    (hfind : records.find? (fun t => t.id = id) = some r) :
    ∃ rnew rest, updateRecord records id u now = .ok (rnew, rest) ∧
      rnew.id = r.id ∧ rnew.createdAt = r.createdAt ∧
      rnew.imageUrl = r.imageUrl ∧ rnew.updatedAt = now ∧
      rest.length = records.length ∧
      ∀ j, j ≠ records.findIdx (fun t => t.id = id) → rest[j]? = records[j]? := by
  refine ⟨applyPatch r u now,
    records.set (records.findIdx (fun t => t.id = id)) (applyPatch r u now),
    by simp [updateRecord, hfind], rfl, rfl, rfl, rfl, by simp, ?_⟩
  intro j hj
  rw [List.getElem?_set_ne (fun hh => hj hh.symm)]

/-- Witness for C10 at a one-record store. -/
theorem updateRecord_frame_witness :
    ∃ rnew rest, updateRecord [sampleRecord] "a" {} 7 = .ok (rnew, rest) ∧
      rnew.id = sampleRecord.id ∧ rnew.createdAt = sampleRecord.createdAt := by
  obtain ⟨rnew, rest, h, hid, hc, -⟩ :=
    updateRecord_frame [sampleRecord] "a" {} 7 sampleRecord (by decide)
  exact ⟨rnew, rest, h, hid, hc⟩

/-- Claim C9: accepting a release maps `artists[0].name` to `artistName`,
`title` to `albumName`, `labels[0].catno` to `serialNumber`, the first
"Matrix / Runout" identifier (else empty) to `matrixRunout`, passes through
`year`, `country`, `genres`, `styles`, `labels[0].name`, `formats[0].name`,
`id` and `uri`, and selects the cover as the first image's full-size URI,
falling back to its thumbnail, else leaving `imageUrl` unset. -/
theorem selectRelease_mapping (records : List VinylRecord)
    (release : DiscogsReleaseDetails) (now : Nat) (rand : String)
    (a : DiscogsArtist) (arest : List DiscogsArtist)
    (lb : DiscogsLabel) (lrest : List DiscogsLabel)
    (fm : DiscogsFormat) (frest : List DiscogsFormat)
    (hA : release.artists = a :: arest)
    (hL : release.labels = lb :: lrest)
    (hF : release.formats = fm :: frest) :
    (selectRelease records release now rand).1.artistName = a.name ∧
    (selectRelease records release now rand).1.albumName = release.title ∧
    (selectRelease records release now rand).1.serialNumber = lb.catno ∧
    (selectRelease records release now rand).1.matrixRunout =
      ((release.identifiers.bind
        (fun ids => ids.find? (fun i => i.type = "Matrix / Runout"))).map
          (fun i => i.value)).getD "" ∧
    (selectRelease records release now rand).1.year = release.year ∧
    (selectRelease records release now rand).1.country = release.country ∧
    (selectRelease records release now rand).1.genre = release.genres ∧
    (selectRelease records release now rand).1.style = release.styles ∧
    (selectRelease records release now rand).1.label = some lb.name ∧
    (selectRelease records release now rand).1.format = some fm.name ∧
    (selectRelease records release now rand).1.discogsId = some release.id ∧
    (selectRelease records release now rand).1.discogsUrl = release.uri ∧
    (selectRelease records release now rand).1.imageUrl =
      specCover release.images := by
  refine ⟨?_, ?_, ?_, ?_, rfl, rfl, rfl, rfl, ?_, ?_, rfl, rfl, ?_⟩
  · simp [selectRelease, createRecord, buildRecord, selectReleaseInput, hA,
      jsOrStr_empty]
  · show jsOrStr (some (strOr release.title "")) "" = release.title
    rw [jsOrStr_empty, Option.getD_some, strOr_empty]
  · simp [selectRelease, createRecord, buildRecord, selectReleaseInput, hL,
      jsOrStr_empty]
  · show jsOrStr (some (jsOrStr _ "")) "" = _
    rw [jsOrStr_empty, Option.getD_some, jsOrStr_empty]
  · simp [selectRelease, createRecord, buildRecord, selectReleaseInput, hL]
  · simp [selectRelease, createRecord, buildRecord, selectReleaseInput, hF]
  · show jsOrNull (coverImage release.images) = specCover release.images
    exact coverImage_spec release.images

/-- Witness for C9 at a concrete release detail. -/
theorem selectRelease_mapping_witness :
    (selectRelease [] sampleRelease 0 "r").1.artistName = "Miles Davis" ∧
    (selectRelease [] sampleRelease 0 "r").1.serialNumber = "CL 1355" ∧
    (selectRelease [] sampleRelease 0 "r").1.label = some "Columbia" := by
  obtain ⟨h1, -, h3, -, -, -, -, -, h9, -⟩ :=
    selectRelease_mapping [] sampleRelease 0 "r"
      ⟨"Miles Davis", none, 10⟩ [] ⟨"Columbia", "CL 1355", 20⟩ []
      ⟨"Vinyl", "1", none⟩ [] rfl rfl rfl
  exact ⟨h1, h3, h9⟩

end Vinyl
